import Mathlib

/-!
Verification of the coc.nvim adapter for lsp_lines (src/coc-extension/index.js).

The adapter is event-driven glue: it subscribes to diagnostic-refresh and
cursor-move events, normalizes diagnostic records (adding `lnum`/`col` fields
derived from the range's start position), optionally filters them to the line
the cursor is on, and forwards them to an external Lua render entry point.
We embed the data model and the event handlers as pure Lean functions and
prove the specified properties about them.
-/

/-- Zero-based (line, character) position, as in an LSP range. -/
structure Position where
  line : Int
  character : Int
deriving DecidableEq, Repr

/-- Diagnostic range: the JS objects have fields `start` and `end`; `end` is a
Lean keyword so the second field is named `end_` here. -/
structure DiagRange where
  start : Position
  end_ : Position
deriving DecidableEq, Repr

/-- Diagnostic record as handled by the adapter. The fields `lnum` and `col`
are absent (`none`) until `populateLnumAndCol` sets them; the remaining fields
(`severity`, `message`, `source`) are carried along untouched by the adapter. -/
structure Diagnostic where
  range : DiagRange
  severity : Int
  message : String
  source : String
  lnum : Option Int := none
  col : Option Int := none
deriving DecidableEq, Repr

/-- Embedding of `diagnosticIsOnLine(cocDiagnostic, lnum)`:
`start.line <= lnum - 1 && end.line >= lnum - 1`, where `lnum` is the
one-based cursor line and the range lines are zero-based. -/
def diagnosticIsOnLine (cocDiagnostic : Diagnostic) (lnum : Int) : Bool :=
  cocDiagnostic.range.start.line ≤ lnum - 1 && cocDiagnostic.range.end_.line ≥ lnum - 1

/-- Embedding of `populateLnumAndCol(cocDiagnostic)`: sets
`cocDiagnostic.lnum = start.line` and `cocDiagnostic.col = start.character`
and returns the record. -/
def populateLnumAndCol (cocDiagnostic : Diagnostic) : Diagnostic :=
  { cocDiagnostic with
      lnum := some cocDiagnostic.range.start.line
      col := some cocDiagnostic.range.start.character }

/-- In the JS source, `populateLnumAndCol` assigns to properties of the very
object the caller passed in (`cocDiagnostic.lnum = start.line`), so the record
the caller holds after the call is the updated record (the returned object and
the argument are the same object). This definition makes that in-place effect
explicit: it maps the caller's record before the call to the caller's record
after the call. -/
def argAfterPopulate (cocDiagnostic : Diagnostic) : Diagnostic :=
  populateLnumAndCol cocDiagnostic

/-- One invocation of the external render entry point
`require'lsp_lines.render'.show`, with its five arguments in source order:
namespace, buffer number, diagnostic sequence, options, source tag. -/
structure RenderCall where
  ns : Int
  bufnr : Int
  diagnostics : List Diagnostic
  opts : List (String × String)
  sourceTag : String
deriving DecidableEq, Repr

/-- Payload of the diagnostic manager's `onDidRefresh` event `e`: the buffer
number `e.bufnr` and the full diagnostic set `e.diagnostics` for that buffer. -/
structure RefreshEvent where
  bufnr : Int
  diagnostics : List Diagnostic
deriving DecidableEq, Repr

/-- State of the external diagnostic manager visible to the adapter:
`getBufferAndPosition()` yields the currently focused (active) buffer, and
`getDiagnostics(buffer)` yields that buffer's diagnostics grouped by
originating source tool. -/
structure DiagnosticManagerState where
  activeBuffer : Int
  diagnosticsBySource : Int → List (String × List Diagnostic)

/-- Embedding of the flattening loop in the CursorMoved handler:
`for (const source in diagnosticsBySource) flattenedDiagnostics.push(...)`,
appending each source group's diagnostics in order. -/
def flattenDiagnostics (groups : List (String × List Diagnostic)) : List Diagnostic :=
  groups.foldl (fun acc g => acc ++ g.2) []

/-- Host-environment snapshot at the moment an event handler runs: the
diagnostic manager's state and the focused window's cursor `[lnum, col]`
(one-based line) obtained via `nvim.window` / `window.cursor`. -/
structure HostState where
  mgr : DiagnosticManagerState
  focusedCursor : Int × Int

/-- Display mode, chosen once at activation from the `lsp_lines.currentLineOnly`
configuration flag. -/
inductive DisplayMode where
  | currentLineOnly
  | allLines
deriving DecidableEq, Repr

/-- Events delivered by the host: a diagnostic refresh, or a cursor move
carrying the event's buffer number and the new cursor `[lnum, col]`. -/
inductive Event where
  | refresh (e : RefreshEvent)
  | cursorMoved (bufnr : Int) (cursor : Int × Int)
deriving DecidableEq

/-- Embedding of the `onDidRefresh` handler registered by
`activateCurrentLineOnlyMode`: reads the focused window's cursor line, then
issues one render call for `e.bufnr` with the event's diagnostics normalized
and filtered against that cursor line. -/
def currentLineOnlyRefreshHandler (ns : Int) (focusedCursor : Int × Int)
    (e : RefreshEvent) : List RenderCall :=
  [{ ns := ns
     bufnr := e.bufnr
     diagnostics := (e.diagnostics.map populateLnumAndCol).filter
       (fun d => diagnosticIsOnLine d focusedCursor.1)
     opts := []
     sourceTag := "coc" }]

/-- Embedding of the `CursorMoved` handler registered by
`activateCurrentLineOnlyMode`: resolves the active buffer via
`getBufferAndPosition()`, fetches that buffer's full diagnostics grouped by
source via `getDiagnostics`, flattens the groups, normalizes and filters by the
event's cursor line, and issues one render call targeting the event's `bufnr`. -/
def cursorMovedHandler (ns : Int) (mgr : DiagnosticManagerState)
    (bufnr : Int) (cursor : Int × Int) : List RenderCall :=
  [{ ns := ns
     bufnr := bufnr
     diagnostics :=
       ((flattenDiagnostics (mgr.diagnosticsBySource mgr.activeBuffer)).map
         populateLnumAndCol).filter (fun d => diagnosticIsOnLine d cursor.1)
     opts := []
     sourceTag := "coc" }]

/-- Embedding of the `onDidRefresh` handler registered by
`activateAllLinesMode`: issues one render call for `e.bufnr` with the full
event diagnostic set normalized, unfiltered. -/
def allLinesRefreshHandler (ns : Int) (e : RefreshEvent) : List RenderCall :=
  [{ ns := ns
     bufnr := e.bufnr
     diagnostics := e.diagnostics.map populateLnumAndCol
     opts := []
     sourceTag := "coc" }]

/-- Dispatch of one host event under the chosen display mode. In
`currentLineOnly` mode both handlers are subscribed; in `allLines` mode only
the refresh handler is subscribed, so cursor moves produce no render call. -/
def handleEvent (mode : DisplayMode) (ns : Int) (host : HostState)
    (ev : Event) : List RenderCall :=
  match mode, ev with
  | DisplayMode.currentLineOnly, Event.refresh e =>
      currentLineOnlyRefreshHandler ns host.focusedCursor e
  | DisplayMode.currentLineOnly, Event.cursorMoved bufnr cursor =>
      cursorMovedHandler ns host.mgr bufnr cursor
  | DisplayMode.allLines, Event.refresh e => allLinesRefreshHandler ns e
  | DisplayMode.allLines, Event.cursorMoved _ _ => []

/-- Render calls issued over a whole session: each delivered event is handled
against the host snapshot current at its delivery time, in order. -/
def runSession (mode : DisplayMode) (ns : Int) :
    List (HostState × Event) → List RenderCall
  | [] => []
  | (host, ev) :: rest => handleEvent mode ns host ev ++ runSession mode ns rest

/-- One `nvim_buf_clear_namespace(bufnr, NS, 0, -1)` call issued by the
deactivation disposable. -/
structure ClearCall where
  bufnr : Int
  ns : Int
  lineStart : Int
  lineEnd : Int
deriving DecidableEq, Repr

/-- Embedding of the deactivation disposable (identical in both modes): for
every buffer in `nvim_list_bufs()` it clears the adapter's namespace over the
whole buffer (`0` to `-1`). The closure captures only `NS`; in particular it
takes no render history, which `deactivationCleanupAfter` records explicitly. -/
def deactivationCleanup (ns : Int) (openBuffers : List Int) : List ClearCall :=
  openBuffers.map (fun b => { bufnr := b, ns := ns, lineStart := 0, lineEnd := -1 })

/-- Cleanup as it runs at disposal time, after some history of render calls has
been issued; the history parameter records that the disposable runs regardless
of (and without reference to) the renders that preceded it. -/
def deactivationCleanupAfter (ns : Int) (openBuffers : List Int)
    (_renderHistory : List RenderCall) : List ClearCall :=
  deactivationCleanup ns openBuffers

/-- Concrete single-line diagnostic at zero-based line 4, for the boundary
cases of the line-intersection rule. -/
def singleLineDiag4 : Diagnostic :=
  { range := { start := { line := 4, character := 0 }
               end_ := { line := 4, character := 5 } }
    severity := 1
    message := "example"
    source := "tool" }

/-- Concrete diagnostic from the specified scenario: range start (2,0),
end (2,5), message "unused var". -/
def diagOnLine2 : Diagnostic :=
  { range := { start := { line := 2, character := 0 }
               end_ := { line := 2, character := 5 } }
    severity := 1
    message := "unused var"
    source := "tool" }

/-- Concrete diagnostic whose range covers only zero-based line 0. -/
def diagOnLine0 : Diagnostic :=
  { range := { start := { line := 0, character := 0 }
               end_ := { line := 0, character := 3 } }
    severity := 1
    message := "trailing whitespace"
    source := "tool" }

/-- Concrete diagnostic record as received from the manager, before any
`lnum`/`col` fields have been set. -/
def receivedDiag : Diagnostic :=
  { range := { start := { line := 2, character := 0 }
               end_ := { line := 2, character := 5 } }
    severity := 1
    message := "unused var"
    source := "tool" }

/-- Concrete host snapshot: buffer 1 is focused, its diagnostics consist of
one source group holding `diagOnLine2`, other buffers have none, and the
focused window's cursor sits on one-based line 3. -/
def specHost : HostState :=
  { mgr := { activeBuffer := 1
             diagnosticsBySource := fun b => if b = 1 then [("tool", [diagOnLine2])] else [] }
    focusedCursor := (3, 0) }

/-- Concrete host snapshot for the cross-buffer scenario: buffer 1 is the
active buffer and owns `diagOnLine0`; buffer 2 (a different buffer) owns no
diagnostics. -/
def crossHost : HostState :=
  { mgr := { activeBuffer := 1
             diagnosticsBySource := fun b => if b = 1 then [("tool", [diagOnLine0])] else [] }
    focusedCursor := (1, 0) }

/-- Render calls of a session decompose over concatenation of the delivered
event list: each event contributes exactly the calls its own handler issues. -/
theorem runSession_append (mode : DisplayMode) (ns : Int)
    (xs ys : List (HostState × Event)) :
    runSession mode ns (xs ++ ys) = runSession mode ns xs ++ runSession mode ns ys := by
  induction xs with
  | nil => simp [runSession]
  | cons x xs ih =>
    obtain ⟨host, ev⟩ := x
    simp [runSession, ih]

/-- C1: `diagnosticIsOnLine` holds exactly when the zero-based start line is at
most `lnum - 1` and the zero-based end line is at least `lnum - 1`; at the
boundary, a single-line diagnostic at zero-based line 4 is on one-based cursor
line 5 but not on line 6 or line 4. -/
theorem diagnosticIsOnLine_iff_between (d : Diagnostic) (lnum : Int) :
    (diagnosticIsOnLine d lnum = true ↔
      d.range.start.line ≤ lnum - 1 ∧ lnum - 1 ≤ d.range.end_.line) ∧
    diagnosticIsOnLine singleLineDiag4 5 = true ∧
    diagnosticIsOnLine singleLineDiag4 6 = false ∧
    diagnosticIsOnLine singleLineDiag4 4 = false := by
  refine ⟨?_, by decide, by decide, by decide⟩
  simp [diagnosticIsOnLine, ge_iff_le]

/-- C4: after normalization, the denormalized `lnum` field equals the range's
start line and the `col` field equals the range's start character. -/
theorem populateLnumAndCol_sets_start_fields (d : Diagnostic) :
    (populateLnumAndCol d).lnum = some d.range.start.line ∧
    (populateLnumAndCol d).col = some d.range.start.character :=
  ⟨rfl, rfl⟩

/-- C5: normalization is idempotent: applying `populateLnumAndCol` twice
yields the same record as applying it once. -/
theorem populateLnumAndCol_idempotent (d : Diagnostic) :
    populateLnumAndCol (populateLnumAndCol d) = populateLnumAndCol d :=
  rfl

/-- C9 counterexample: the received record is modified by the call. With a
concrete diagnostic whose `lnum`/`col` fields are still absent, the record the
caller holds after `populateLnumAndCol` returns differs from the record it
passed in, because the JS function assigns to the passed object's fields. -/
theorem populate_modifies_received_record :
    argAfterPopulate receivedDiag ≠ receivedDiag := by
  decide

/-- C9 amended: `populateLnumAndCol` leaves the `range`, `severity`, `message`
and `source` fields unchanged, but it updates the received record in place:
after the call the caller's record is the input with `lnum` and `col`
overwritten from the range's start position. -/
theorem populate_frame_and_in_place_update (d : Diagnostic) :
    (populateLnumAndCol d).range = d.range ∧
    (populateLnumAndCol d).severity = d.severity ∧
    (populateLnumAndCol d).message = d.message ∧
    (populateLnumAndCol d).source = d.source ∧
    argAfterPopulate d =
      { d with lnum := some d.range.start.line, col := some d.range.start.character } :=
  ⟨rfl, rfl, rfl, rfl, rfl⟩

/-- C3: in `AllLines` mode a refresh event for buffer `e.bufnr` carrying set
`e.diagnostics` yields exactly one render call, targeting `e.bufnr`, whose
sequence is the whole set mapped through normalization — same cardinality, and
every element has its `lnum`/`col` fields populated. -/
theorem allLines_refresh_renders_all (ns : Int) (host : HostState) (e : RefreshEvent) :
    handleEvent DisplayMode.allLines ns host (Event.refresh e) =
      [{ ns := ns, bufnr := e.bufnr, diagnostics := e.diagnostics.map populateLnumAndCol,
         opts := [], sourceTag := "coc" }] ∧
    ∀ c ∈ handleEvent DisplayMode.allLines ns host (Event.refresh e),
      c.bufnr = e.bufnr ∧ c.diagnostics.length = e.diagnostics.length ∧
      ∀ d ∈ c.diagnostics,
        d.lnum = some d.range.start.line ∧ d.col = some d.range.start.character := by
  refine ⟨rfl, ?_⟩
  intro c hc
  simp only [handleEvent, allLinesRefreshHandler, List.mem_singleton] at hc
  subst hc
  refine ⟨rfl, List.length_map _ _, ?_⟩
  intro d hd
  obtain ⟨a, _, rfl⟩ := List.mem_map.1 hd
  exact ⟨rfl, rfl⟩

/-- C3 witness: at a concrete refresh event carrying one diagnostic, the
single render call targets the event's buffer, preserves cardinality, and its
element is normalized. -/
theorem allLines_refresh_renders_all_witness :
    ({ ns := 7, bufnr := 2, diagnostics := [populateLnumAndCol diagOnLine2],
       opts := [], sourceTag := "coc" } : RenderCall).bufnr = (2 : Int) ∧
    ({ ns := 7, bufnr := 2, diagnostics := [populateLnumAndCol diagOnLine2],
       opts := [], sourceTag := "coc" } : RenderCall).diagnostics.length =
      (RefreshEvent.mk 2 [diagOnLine2]).diagnostics.length ∧
    ∀ d ∈ ({ ns := 7, bufnr := 2, diagnostics := [populateLnumAndCol diagOnLine2],
             opts := [], sourceTag := "coc" } : RenderCall).diagnostics,
      d.lnum = some d.range.start.line ∧ d.col = some d.range.start.character :=
  (allLines_refresh_renders_all 7 specHost (RefreshEvent.mk 2 [diagOnLine2])).2
    { ns := 7, bufnr := 2, diagnostics := [populateLnumAndCol diagOnLine2],
      opts := [], sourceTag := "coc" }
    (by decide)

/-- C2: on every cursor move the handler issues exactly one render call whose
sequence is the manager's full current set — flattened across source groups,
normalized, then filtered by the new cursor line — independent of any earlier
events of the session (the decomposition conjunct), and the call is issued even
when the filtered sequence is empty (the concrete conjunct: cursor on line 5,
sole diagnostic on zero-based line 2). -/
theorem cursorMoved_refetches_full_set_and_renders_once
    (ns : Int) (host : HostState) (bufnr : Int) (cursor : Int × Int)
    (prior : List (HostState × Event)) :
    (handleEvent DisplayMode.currentLineOnly ns host (Event.cursorMoved bufnr cursor)).length = 1 ∧
    (∀ c ∈ handleEvent DisplayMode.currentLineOnly ns host (Event.cursorMoved bufnr cursor),
      c.diagnostics =
        ((flattenDiagnostics (host.mgr.diagnosticsBySource host.mgr.activeBuffer)).map
          populateLnumAndCol).filter (fun d => diagnosticIsOnLine d cursor.1)) ∧
    runSession DisplayMode.currentLineOnly ns
        (prior ++ [(host, Event.cursorMoved bufnr cursor)]) =
      runSession DisplayMode.currentLineOnly ns prior ++
        handleEvent DisplayMode.currentLineOnly ns host (Event.cursorMoved bufnr cursor) ∧
    handleEvent DisplayMode.currentLineOnly ns specHost (Event.cursorMoved 1 (5, 0)) =
      [{ ns := ns, bufnr := 1, diagnostics := [], opts := [], sourceTag := "coc" }] := by
  refine ⟨rfl, ?_, ?_, rfl⟩
  · intro c hc
    simp only [handleEvent, cursorMovedHandler, List.mem_singleton] at hc
    subst hc
    rfl
  · rw [runSession_append]
    simp [runSession]

/-- C2 witness: with the focused buffer holding one diagnostic on zero-based
line 2 and the cursor moving to one-based line 3, the handler issues one call
and its sequence equals the filtered normalization of the full fetched set. -/
theorem cursorMoved_refetches_witness :
    (handleEvent DisplayMode.currentLineOnly 7 specHost (Event.cursorMoved 1 (3, 0))).length = 1 ∧
    ({ ns := 7, bufnr := 1, diagnostics := [populateLnumAndCol diagOnLine2],
       opts := [], sourceTag := "coc" } : RenderCall).diagnostics =
      ((flattenDiagnostics (specHost.mgr.diagnosticsBySource specHost.mgr.activeBuffer)).map
        populateLnumAndCol).filter (fun d => diagnosticIsOnLine d ((3 : Int), (0 : Int)).1) :=
  ⟨(cursorMoved_refetches_full_set_and_renders_once 7 specHost 1 (3, 0) []).1,
   (cursorMoved_refetches_full_set_and_renders_once 7 specHost 1 (3, 0) []).2.1
     { ns := 7, bufnr := 1, diagnostics := [populateLnumAndCol diagOnLine2],
       opts := [], sourceTag := "coc" } (by decide)⟩

/-- C6: every render call issued by either handler in either mode carries the
activation's namespace, the empty options value, and the fixed source tag
"coc"; the argument order (namespace, buffer, diagnostics, options, tag) is the
field order of `RenderCall`. -/
theorem renderCall_argument_contract (mode : DisplayMode) (ns : Int)
    (host : HostState) (ev : Event) :
    ∀ c ∈ handleEvent mode ns host ev,
      c.ns = ns ∧ c.opts = [] ∧ c.sourceTag = "coc" := by
  intro c hc
  cases mode <;> cases ev <;>
    simp only [handleEvent, currentLineOnlyRefreshHandler, cursorMovedHandler,
      allLinesRefreshHandler, List.mem_singleton] at hc
  all_goals
    first
      | exact absurd hc (List.not_mem_nil _)
      | (subst hc; exact ⟨rfl, rfl, rfl⟩)

/-- C6 witness: the concrete render call issued for a concrete refresh event in
`AllLines` mode carries namespace 7, empty options, and tag "coc". -/
theorem renderCall_argument_contract_witness :
    ({ ns := 7, bufnr := 2, diagnostics := [populateLnumAndCol diagOnLine2],
       opts := [], sourceTag := "coc" } : RenderCall).ns = 7 ∧
    ({ ns := 7, bufnr := 2, diagnostics := [populateLnumAndCol diagOnLine2],
       opts := [], sourceTag := "coc" } : RenderCall).opts = [] ∧
    ({ ns := 7, bufnr := 2, diagnostics := [populateLnumAndCol diagOnLine2],
       opts := [], sourceTag := "coc" } : RenderCall).sourceTag = "coc" :=
  renderCall_argument_contract DisplayMode.allLines 7 specHost
    (Event.refresh (RefreshEvent.mk 2 [diagOnLine2])) _ (by decide)

/-- C7: the deactivation disposable issues, for every open buffer, a clear of
the adapter's namespace over the whole buffer, and its output is the same
whatever render history preceded disposal. -/
theorem deactivation_clears_every_open_buffer (ns : Int) (openBuffers : List Int)
    (renderHistory : List RenderCall) (b : Int) (hb : b ∈ openBuffers) :
    deactivationCleanupAfter ns openBuffers renderHistory =
      deactivationCleanup ns openBuffers ∧
    ({ bufnr := b, ns := ns, lineStart := 0, lineEnd := -1 } : ClearCall) ∈
      deactivationCleanupAfter ns openBuffers renderHistory :=
  ⟨rfl, List.mem_map_of_mem _ hb⟩

/-- C7 witness: with open buffers 1 and 2 and an empty render history, buffer 2
gets its namespace-7 annotations cleared over the whole buffer. -/
theorem deactivation_clears_witness :
    deactivationCleanupAfter 7 [1, 2] [] = deactivationCleanup 7 [1, 2] ∧
    ({ bufnr := 2, ns := 7, lineStart := 0, lineEnd := -1 } : ClearCall) ∈
      deactivationCleanupAfter 7 [1, 2] [] :=
  deactivation_clears_every_open_buffer 7 [1, 2] [] 2 (by decide)

/-- C8: in `CurrentLineOnly` mode a refresh event produces exactly one render
call, targeting the event's buffer, whose sequence is filtered against the
focused window's cursor line — with no constraint tying the refreshed buffer
to the focused buffer. -/
theorem refresh_uses_focused_cursor_targets_event_buffer
    (ns : Int) (host : HostState) (e : RefreshEvent) :
    (handleEvent DisplayMode.currentLineOnly ns host (Event.refresh e)).length = 1 ∧
    ∀ c ∈ handleEvent DisplayMode.currentLineOnly ns host (Event.refresh e),
      c.bufnr = e.bufnr ∧
      c.diagnostics = (e.diagnostics.map populateLnumAndCol).filter
        (fun d => diagnosticIsOnLine d host.focusedCursor.1) := by
  refine ⟨rfl, ?_⟩
  intro c hc
  simp only [handleEvent, currentLineOnlyRefreshHandler, List.mem_singleton] at hc
  subst hc
  exact ⟨rfl, rfl⟩

/-- C8 witness: a refresh for buffer 2 while buffer 1 is focused (cursor on
line 3) still filters by the focused cursor line and targets buffer 2. -/
theorem refresh_uses_focused_cursor_witness :
    (handleEvent DisplayMode.currentLineOnly 7 specHost
      (Event.refresh (RefreshEvent.mk 2 [diagOnLine2]))).length = 1 ∧
    ({ ns := 7, bufnr := 2, diagnostics := [populateLnumAndCol diagOnLine2],
       opts := [], sourceTag := "coc" } : RenderCall).bufnr =
      (RefreshEvent.mk 2 [diagOnLine2]).bufnr ∧
    ({ ns := 7, bufnr := 2, diagnostics := [populateLnumAndCol diagOnLine2],
       opts := [], sourceTag := "coc" } : RenderCall).diagnostics =
      ((RefreshEvent.mk 2 [diagOnLine2]).diagnostics.map populateLnumAndCol).filter
        (fun d => diagnosticIsOnLine d specHost.focusedCursor.1) := by
  refine ⟨(refresh_uses_focused_cursor_targets_event_buffer 7 specHost
    (RefreshEvent.mk 2 [diagOnLine2])).1, ?_, ?_⟩
  · exact ((refresh_uses_focused_cursor_targets_event_buffer 7 specHost
      (RefreshEvent.mk 2 [diagOnLine2])).2 _ (by decide)).1
  · exact ((refresh_uses_focused_cursor_targets_event_buffer 7 specHost
      (RefreshEvent.mk 2 [diagOnLine2])).2 _ (by decide)).2

/-- C10: the cursor-move handler fetches diagnostics for the manager's active
buffer while the render call targets the event's buffer number; concretely,
with buffer 1 active and owning one diagnostic, a cursor-move event in buffer 2
renders buffer 1's diagnostic into buffer 2 even though buffer 2's own
diagnostic set is empty. -/
theorem cursorMoved_fetches_active_renders_event_buffer
    (ns : Int) (host : HostState) (bufnr : Int) (cursor : Int × Int) :
    handleEvent DisplayMode.currentLineOnly ns host (Event.cursorMoved bufnr cursor) =
      [{ ns := ns, bufnr := bufnr,
         diagnostics :=
           ((flattenDiagnostics (host.mgr.diagnosticsBySource host.mgr.activeBuffer)).map
             populateLnumAndCol).filter (fun d => diagnosticIsOnLine d cursor.1),
         opts := [], sourceTag := "coc" }] ∧
    flattenDiagnostics (crossHost.mgr.diagnosticsBySource 2) = [] ∧
    handleEvent DisplayMode.currentLineOnly 7 crossHost (Event.cursorMoved 2 (1, 0)) =
      [{ ns := 7, bufnr := 2, diagnostics := [populateLnumAndCol diagOnLine0],
         opts := [], sourceTag := "coc" }] :=
  ⟨rfl, by decide, by decide⟩

/-- C1 witness: the line-intersection rule instantiated at the concrete
single-line diagnostic on zero-based line 4 and cursor line 5. -/
theorem diagnosticIsOnLine_iff_between_witness :
    (diagnosticIsOnLine singleLineDiag4 5 = true ↔
      singleLineDiag4.range.start.line ≤ 5 - 1 ∧
        5 - 1 ≤ singleLineDiag4.range.end_.line) ∧
    diagnosticIsOnLine singleLineDiag4 5 = true :=
  ⟨(diagnosticIsOnLine_iff_between singleLineDiag4 5).1,
   (diagnosticIsOnLine_iff_between singleLineDiag4 5).2.1⟩

/-- C4 witness: normalization of the concrete scenario diagnostic yields
`lnum = 2` and `col = 0`. -/
theorem populateLnumAndCol_sets_start_fields_witness :
    (populateLnumAndCol diagOnLine2).lnum = some diagOnLine2.range.start.line ∧
    (populateLnumAndCol diagOnLine2).col = some diagOnLine2.range.start.character :=
  populateLnumAndCol_sets_start_fields diagOnLine2

/-- C5 witness: idempotence at the concrete single-line diagnostic. -/
theorem populateLnumAndCol_idempotent_witness :
    populateLnumAndCol (populateLnumAndCol singleLineDiag4) =
      populateLnumAndCol singleLineDiag4 :=
  populateLnumAndCol_idempotent singleLineDiag4

/-- C9 amended-claim witness: the frame and in-place-update facts at a
concrete diagnostic. -/
theorem populate_frame_and_in_place_update_witness :
    (populateLnumAndCol diagOnLine0).range = diagOnLine0.range ∧
    (populateLnumAndCol diagOnLine0).severity = diagOnLine0.severity ∧
    (populateLnumAndCol diagOnLine0).message = diagOnLine0.message ∧
    (populateLnumAndCol diagOnLine0).source = diagOnLine0.source ∧
    argAfterPopulate diagOnLine0 =
      { diagOnLine0 with
          lnum := some diagOnLine0.range.start.line
          col := some diagOnLine0.range.start.character } :=
  populate_frame_and_in_place_update diagOnLine0

/-- C10 witness: the cross-buffer scenario instantiated concretely. -/
theorem cursorMoved_fetches_active_witness :
    handleEvent DisplayMode.currentLineOnly 7 crossHost (Event.cursorMoved 2 (1, 0)) =
      [{ ns := 7, bufnr := 2,
         diagnostics :=
           ((flattenDiagnostics (crossHost.mgr.diagnosticsBySource
             crossHost.mgr.activeBuffer)).map populateLnumAndCol).filter
               (fun d => diagnosticIsOnLine d ((1 : Int), (0 : Int)).1),
         opts := [], sourceTag := "coc" }] :=
  (cursorMoved_fetches_active_renders_event_buffer 7 crossHost 2 (1, 0)).1
